import Mathlib

/-!
Verification of the bitwig-theme-manager repository.

The frontend (TypeScript, under src/) is embedded directly: React hook state
updates become pure state-passing functions, Tauri invocations become an
explicit `Except String _` parameter carrying the backend outcome, and JS
records become association lists.  The Rust backend (Patch Engine, Backup
Manager, file watcher) is not part of the repository snapshot; where a claim
is decided by it, the corresponding definition is modelled from the spec and
marked `Modelled from the spec:` in its doc comment.
-/

namespace Bitwig

/-- `BitwigInstallation` from src/src/api/types.ts. -/
structure BitwigInstallation where
  path : String
  version : String
  jar_path : String
  is_patched : Bool
  installation_type : String
  needs_sudo : Bool
deriving DecidableEq, Repr

/-- `ThemeMetadata` from src/src/api/types.ts (all fields optional). -/
structure ThemeMetadata where
  name : Option String
  author : Option String
  description : Option String
  version : Option String
deriving DecidableEq, Repr

/-- `Theme` from src/src/api/types.ts; the JS `Record<string,string>` colors
map is embedded as an association list in insertion order. -/
structure Theme where
  metadata : ThemeMetadata
  colors : List (String × String)
  path : Option String
deriving DecidableEq, Repr

/-- JS object update `{ ...m, [key]: value }`: an existing key is overwritten
in place, a new key is appended at the end (JS property-order semantics). -/
def recordSet (m : List (String × String)) (key value : String) : List (String × String) :=
  if m.any (fun p => p.1 == key) then
    m.map (fun p => if p.1 == key then (key, value) else p)
  else
    m ++ [(key, value)]

/-- JS property read `m[key]` on the embedded record. -/
def recordGet (m : List (String × String)) (key : String) : Option String :=
  (m.find? (fun p => p.1 == key)).map (fun p => p.2)

/-! ## Frontend: useBitwigInstallations (src/src/hooks/useUpdater.ts, lines 133-212)

Each hook callback takes the backend invocation's outcome as an explicit
`Except` argument and returns the new `installations` list together with the
callback's boolean return value. -/

/-- The `setInstallations` functional update inside `patchInstallation` /
`restoreInstallation`: flip `is_patched` of every entry whose `jar_path`
matches. -/
def setPatched (b : Bool) (jarPath : String) (l : List BitwigInstallation) :
    List BitwigInstallation :=
  l.map (fun i => if i.jar_path == jarPath then { i with is_patched := b } else i)

/-- `patchInstallation` (useUpdater.ts lines 173-186): on a resolved
`patch_bitwig` invocation, mark the matching entry patched and return true;
on rejection, leave the list unchanged and return false. -/
def patchInstallation (result : Except String Unit) (l : List BitwigInstallation)
    (jarPath : String) : List BitwigInstallation × Bool :=
  match result with
  | .ok _ => (setPatched true jarPath l, true)
  | .error _ => (l, false)

/-- `restoreInstallation` (useUpdater.ts lines 188-201): on a resolved
`restore_bitwig` invocation, mark the matching entry unpatched and return
true; on rejection, leave the list unchanged and return false. -/
def restoreInstallation (result : Except String Unit) (l : List BitwigInstallation)
    (jarPath : String) : List BitwigInstallation × Bool :=
  match result with
  | .ok _ => (setPatched false jarPath l, true)
  | .error _ => (l, false)

/-- `addManualPath` (useUpdater.ts lines 155-171): `result` is the outcome of
`validate_bitwig_path`.  A validated installation is appended unless an entry
with the same `jar_path` already exists; the callback returns true whenever
validation produced an installation, false otherwise. -/
def addManualPath (result : Except String (Option BitwigInstallation))
    (l : List BitwigInstallation) : List BitwigInstallation × Bool :=
  match result with
  | .ok (some installation) =>
      if l.any (fun i => i.jar_path == installation.jar_path) then (l, true)
      else (l ++ [installation], true)
  | .ok none => (l, false)
  | .error _ => (l, false)

/-! ## Frontend: useThemes (src/unnamed/part_001) -/

/-- The slice of `useThemes` state that `applyTheme` reads and writes. -/
structure ThemesState where
  activeThemePath : Option String
  error : Option String
deriving DecidableEq, Repr

/-- `applyTheme` (part_001 lines 69-79): clears the error, invokes
`apply_theme`; on success records the new active path and returns the
backend's message, on rejection records the error, leaves `activeThemePath`
unchanged and returns null (`none`). -/
def applyTheme (result : Except String String) (themePath : String) (s : ThemesState) :
    ThemesState × Option String :=
  match result with
  | .ok message => ({ activeThemePath := some themePath, error := none }, some message)
  | .error e => ({ s with error := some e }, none)

/-- `updateColor` (part_001 lines 81-90): writes the value into the current
theme's colors map unconditionally; a `none` current theme is left alone. -/
def updateColor (key value : String) (t : Option Theme) : Option Theme :=
  match t with
  | none => none
  | some theme => some { theme with colors := recordSet theme.colors key value }

/-! ## Frontend: ColorPicker (src/src/components/ColorPicker.tsx) -/

/-- The JS regex `^#[0-9A-Fa-f]{6}$` as a Boolean predicate on strings. -/
def isValidHexColor (s : String) : Bool :=
  match s.data with
  | '#' :: rest =>
      rest.length == 6 &&
        rest.all (fun c => c.isDigit || ('A' ≤ c && c ≤ 'F') || ('a' ≤ c && c ≤ 'f'))
  | _ => false

/-- `handleInputChange` (ColorPicker.tsx lines 28-34): the value forwarded to
`onChange`, or `none` when the regex test rejects it. -/
def handleInputChange (newValue : String) : Option String :=
  if isValidHexColor newValue then some newValue else none

/-- JS `String.prototype.toUpperCase()` on the characters of the value
(ASCII case mapping, character by character). -/
def jsToUpperCase (s : String) : String :=
  ⟨s.data.map Char.toUpper⟩

/-- `handleNativeChange` (ColorPicker.tsx lines 36-40): uppercases the native
color input's value and forwards it to `onChange` with no validation. -/
def handleNativeChange (value : String) : Option String :=
  some (jsToUpperCase value)

/-- The text-input editing path: `handleInputChange` feeding `updateColor`
through the `onChange` prop. -/
def textColorEdit (key input : String) (t : Option Theme) : Option Theme :=
  match handleInputChange input with
  | some v => updateColor key v t
  | none => t

/-- The native color-input editing path: `handleNativeChange` feeding
`updateColor` through the `onChange` prop. -/
def nativeColorEdit (key input : String) (t : Option Theme) : Option Theme :=
  match handleNativeChange input with
  | some v => updateColor key v t
  | none => t

/-! ## Backend: Patch Engine and Backup Manager

The Rust backend behind the `patch_bitwig` / `restore_bitwig` / `has_backup`
commands is not in the repository snapshot; these definitions are modelled
from the spec (§4.4, §4.5). -/

/-- Modelled from the spec: the package is an archive with named internal
resources (§6 "opaque container with named internal resources"), embedded as
an association list from resource name to resource bytes. -/
abbrev Archive := List (String × String)

/-- Modelled from the spec: the distinguished marker resource that only the
Patch Engine writes (§4.3, glossary "Marker resource"). -/
def markerName : String := "bitwig-theme-marker"

/-- Modelled from the spec: the injected resource adding theme-file-watching
behavior (§4.5 step 3). -/
def watchResourceName : String := "theme-watch-agent"

/-- Modelled from the spec: `is_patched` checks the archive for the marker
resource (§4.3). -/
def isPatchedArchive (a : Archive) : Bool :=
  a.any (fun r => r.1 == markerName)

/-- Modelled from the spec (§4.5 step 3): the patched archive copies all
existing resources unchanged, injects/replaces the theme-watch resource and
writes the marker resource. -/
def patchArchive (a : Archive) : Archive :=
  (markerName, "marker") :: (watchResourceName, "agent") ::
    a.filter (fun r => !(r.1 == markerName) && !(r.1 == watchResourceName))

/-- Modelled from the spec: per-package backend state — the live package's
bytes and the Backup Manager's stored backup, `none` when no (live) backup
exists (§3 "Backup Record", at most one per package). -/
structure EngineState where
  live : Archive
  backup : Option Archive
deriving DecidableEq, Repr

/-- Modelled from the spec (§4.5 `patch`): if `is_patched` already holds,
return success without modification; otherwise create and verify a backup of
the pre-patch bytes, then atomically replace the live package with the
patched archive. -/
def patchEngine (s : EngineState) : EngineState × Except String Unit :=
  if isPatchedArchive s.live then (s, .ok ())
  else ({ live := patchArchive s.live, backup := some s.live }, .ok ())

/-- Modelled from the spec (§4.4 `restore`, §4.5 `restore`, §8): restoring
requires `has_backup`; without one it fails with a "no backup" condition and
modifies nothing; with one it copies the backup bytes back over the live
package and then retires the backup. -/
def restoreEngine (s : EngineState) : EngineState × Except String Unit :=
  match s.backup with
  | none => (s, .error "no backup")
  | some b => ({ live := b, backup := none }, .ok ())

/-- Modelled from the spec (§4.4, §4.5): the observable event order of one
`patch` execution.  A no-op run (already patched) touches nothing; otherwise
the backup is created, durably flushed and checksum-verified, and only then
is a byte of the live package written. -/
inductive PatchEvent where
  | backupCreate
  | backupVerify
  | liveWrite
deriving DecidableEq, Repr

/-- Modelled from the spec (§4.4 safety invariant, §4.5 steps 1-4): the event
trace of `patch` on backend state `s`. -/
def patchTrace (s : EngineState) : List PatchEvent :=
  if isPatchedArchive s.live then []
  else [.backupCreate, .backupVerify, .liveWrite]

/-! ## Backend and frontend: the file watcher -/

/-- Modelled from the spec (§3 "Watch Session"): the backend watcher state is
the currently monitored path, `none` when no session runs. -/
abbrev WatcherState := Option String

/-- A user-initiated watcher command: `start_watching(path)` or
`stop_watching`. -/
inductive WatchCommand where
  | start (p : String)
  | stop
deriving DecidableEq, Repr

/-- Modelled from the spec (§3, §4.6 `watch`): `start_watching` replaces any
running session with the new path (last-writer-wins); `stop_watching` clears
it. -/
def watchStep (_s : WatcherState) : WatchCommand → WatcherState
  | .start p => some p
  | .stop => none

/-- Run a sequence of watcher commands from a state. -/
def runWatch (s : WatcherState) (cmds : List WatchCommand) : WatcherState :=
  cmds.foldl watchStep s

/-- Number of active watch sessions recorded in a watcher state. -/
def activeSessions (s : WatcherState) : Nat :=
  match s with
  | none => 0
  | some _ => 1

/-- The slice of `useWatcher` state (src/src/hooks/useWatcher.ts) that
`start`/`stop` write. -/
structure WatcherUIState where
  isRunning : Bool
  currentPath : Option String
  error : Option String
deriving DecidableEq, Repr

/-- `start` (useWatcher.ts lines 61-72): on a resolved `start_watching`
invocation, record the single new path as current and return true; on
rejection record the error, leave the running state and path unchanged, and
return false. -/
def watcherStart (result : Except String Unit) (p : String) (s : WatcherUIState) :
    WatcherUIState × Bool :=
  match result with
  | .ok _ => ({ isRunning := true, currentPath := some p, error := none }, true)
  | .error e => ({ s with error := some e }, false)

/-- `stop` (useWatcher.ts lines 75-86): on success clear the running flag and
path; on rejection record the error and leave them. -/
def watcherStop (result : Except String Unit) (s : WatcherUIState) :
    WatcherUIState × Bool :=
  match result with
  | .ok _ => ({ isRunning := false, currentPath := none, error := none }, true)
  | .error e => ({ s with error := some e }, false)

/-! ## The api module's export surface and PatchView (src/unnamed/part_004) -/

/-- The functions exported by src/src/api/bitwig.ts, in source order.  The
module is imported as `import * as api from "./api/bitwig"`, so a property
access `api.name` yields `undefined` for any name not in this list. -/
def bitwigApiExports : List String :=
  ["detectBitwigInstallations", "validateBitwigPath", "getPatchStatus",
   "getLatestBitwigVersion", "patchBitwig", "restoreBitwig", "hasBackup",
   "hasJava", "ensurePatcherAvailable", "getThemeDirectory", "listThemes",
   "loadTheme", "saveTheme", "getActiveThemePath", "applyTheme",
   "createTheme", "importTheme", "exportTheme", "deleteTheme",
   "saveDownloadedTheme", "fetchRepositoryThemes", "getCachedRepositoryThemes",
   "downloadRepositoryTheme", "cacheThemePreview", "getCachedPreviewPath",
   "listCachedThemes", "clearCache", "startWatching", "stopWatching",
   "getWatcherStatus", "loadSettings", "saveSettings", "getSettingsPath",
   "getLogPath", "checkForUpdates", "getAppVersion", "installUpdate"]

/-- The `patchResult` banner state set by PatchView's handlers. -/
structure PatchResult where
  success : Bool
  message : String
deriving DecidableEq, Repr

/-- The JS call `api.resetTheme(version)` at part_004 line 926: when
"resetTheme" is among the module's exports the backend command runs
(`backend` carries its outcome); otherwise `api.resetTheme` is `undefined`
and calling it throws a TypeError. -/
def resetThemeCall (backend : String → Except String String) (version : String) :
    Except String String :=
  if "resetTheme" ∈ bitwigApiExports then backend version
  else .error "TypeError: api.resetTheme is not a function"

/-- `handleResetTheme` (part_004 lines 922-932): awaits `api.resetTheme`,
shows the returned message on success and a "Reset failed" banner on any
thrown error. -/
def handleResetTheme (backend : String → Except String String) (version : String) :
    PatchResult :=
  match resetThemeCall backend version with
  | .ok message => { success := true, message := message }
  | .error e => { success := false, message := "Reset failed: " ++ e }

/-- The property names of the object returned by `useBitwigInstallations`
(src/src/hooks/useUpdater.ts lines 203-212). -/
def useBitwigInstallationsKeys : List String :=
  ["installations", "loading", "error", "refresh", "addManualPath",
   "patchInstallation", "restoreInstallation"]

/-- Rendering PatchView's installation rows (part_004 lines 891 and
1008-1051): `backups` is destructured from the hook's return object, so it is
`undefined` when "backups" is not among the returned keys, and evaluating
`backups[install.jar_path]` for the first rendered row then throws a
TypeError; with no installations the row body containing that expression is
never evaluated. -/
def renderPatchView (installs : List BitwigInstallation) : Except String Unit :=
  if installs.isEmpty then .ok ()
  else if "backups" ∈ useBitwigInstallationsKeys then .ok ()
  else .error "TypeError: backups is undefined"

/-! ## Concrete states used in counterexamples and witnesses -/

/-- A concrete detected installation. -/
def instA : BitwigInstallation :=
  { path := "/opt/bitwig-studio", version := "5.2",
    jar_path := "/opt/bitwig-studio/bin/bitwig.jar", is_patched := false,
    installation_type := "System", needs_sudo := true }

/-- An unpatched package archive. -/
def archive0 : Archive := [("manifest", "app")]

/-- The pristine backend state: unpatched live package, no backup. -/
def statePristine : EngineState := { live := archive0, backup := none }

/-- The backend state after one successful patch of `statePristine`. -/
def statePatched : EngineState := (patchEngine statePristine).1

/-- A concrete theme with one valid color. -/
def themeBase : Theme :=
  { metadata := { name := some "Base", author := none, description := none, version := none },
    colors := [("background", "#1A1A2E")], path := none }

/-! ## Helper lemmas -/

/-- The patched archive always carries the marker resource. -/
theorem isPatched_patchArchive (a : Archive) : isPatchedArchive (patchArchive a) = true := by
  simp [isPatchedArchive, patchArchive]

/-- Re-marking the same entries is a no-op: `setPatched` is idempotent. -/
theorem setPatched_idem (b : Bool) (jp : String) (l : List BitwigInstallation) :
    setPatched b jp (setPatched b jp l) = setPatched b jp l := by
  unfold setPatched
  rw [List.map_map]
  apply List.map_congr_left
  intro i _
  by_cases h : i.jar_path = jp
  · simp [Function.comp, h]
  · simp [Function.comp, h]

/-- `recordSet` preserves a pointwise Boolean property of the entries when
the inserted entry satisfies it. -/
theorem recordSet_all (P : String × String → Bool) (m : List (String × String))
    (key value : String) (hm : m.all P = true) (hv : P (key, value) = true) :
    (recordSet m key value).all P = true := by
  unfold recordSet
  by_cases h : m.any (fun p => p.1 == key) = true
  · rw [if_pos h, List.all_eq_true] at *
    intro p hp
    rw [List.mem_map] at hp
    obtain ⟨q, hq, rfl⟩ := hp
    by_cases hk : (q.1 == key) = true
    · rw [if_pos hk]; exact hv
    · rw [if_neg hk]; exact hm q hq
  · rw [if_neg h]
    simp only [List.all_append, hm, Bool.true_and, List.all_cons, List.all_nil, Bool.and_true]
    exact hv

/-! ## Claim theorems -/

/-- C1 counterexample: the package already patched once (a reachable state
with a live backup of the pre-patch bytes).  `patch` on it is a no-op, and
`restore` then reverts to the pre-patch original, which differs from the
package's contents at the moment `patch` was called — so the round trip is
not the identity on an already-patched package. -/
theorem C1_roundtrip_counterexample :
    patchEngine statePatched = (statePatched, Except.ok ()) ∧
    (restoreEngine (patchEngine statePatched).1).1.live ≠ statePatched.live := by
  constructor
  · rfl
  · decide

/-- C1 (amended): for every package that is not already patched when `patch`
is called, `patch` followed immediately by `restore` leaves the live package
byte-identical to its contents before `patch` was called. -/
theorem C1_roundtrip (s : EngineState) (h : isPatchedArchive s.live = false) :
    (restoreEngine (patchEngine s).1).1.live = s.live := by
  simp [patchEngine, h, restoreEngine]

/-- C1 witness: the round trip on the pristine state. -/
theorem C1_roundtrip_witness :
    isPatchedArchive statePristine.live = false ∧
    (restoreEngine (patchEngine statePristine).1).1.live = statePristine.live :=
  ⟨by decide, C1_roundtrip statePristine (by decide)⟩

/-- C2: in every execution of `patch`, whenever a live-package write occurs
in the event trace, a backup creation and verification strictly precede it —
no patch-then-backup ordering ever occurs. -/
theorem C2_backup_before_write (s : EngineState) (pre post : List PatchEvent)
    (h : patchTrace s = pre ++ PatchEvent.liveWrite :: post) :
    PatchEvent.backupVerify ∈ pre ∧ PatchEvent.backupCreate ∈ pre := by
  unfold patchTrace at h
  by_cases hp : isPatchedArchive s.live = true
  · rw [if_pos hp] at h
    exact absurd h.symm (List.append_ne_nil_of_right_ne_nil pre (List.cons_ne_nil _ _))
  · rw [if_neg hp] at h
    match pre, h with
    | [], h => simp at h
    | [a], h => simp at h
    | [a, b], h =>
        simp only [List.cons_append, List.nil_append, List.cons.injEq] at h
        obtain ⟨rfl, rfl, -⟩ := h
        exact ⟨by simp, by simp⟩
    | a :: b :: c :: pre', h =>
        simp only [List.cons_append, List.cons.injEq] at h
        obtain ⟨-, -, -, h⟩ := h
        exact absurd h.symm (List.append_ne_nil_of_right_ne_nil pre' (List.cons_ne_nil _ _))

/-- C2 witness: the trace of a real patch run on the pristine state. -/
theorem C2_backup_before_write_witness :
    patchTrace statePristine
      = [PatchEvent.backupCreate, PatchEvent.backupVerify] ++ PatchEvent.liveWrite :: [] ∧
    PatchEvent.backupVerify ∈ [PatchEvent.backupCreate, PatchEvent.backupVerify] :=
  ⟨by decide,
   (C2_backup_before_write statePristine
     [PatchEvent.backupCreate, PatchEvent.backupVerify] [] (by decide)).1⟩

/-- C3: `patch` is idempotent — on an already-patched package it returns
success without modification; patching twice equals patching once and leaves
`is_patched` true; and in the frontend, a second successful
`patchInstallation` leaves the installations list exactly as after the
first, with every matching entry's `is_patched` true. -/
theorem C3_patch_idempotent (s : EngineState) (l : List BitwigInstallation) (jp : String) :
    (isPatchedArchive s.live = true → patchEngine s = (s, Except.ok ())) ∧
    (patchEngine (patchEngine s).1).1 = (patchEngine s).1 ∧
    isPatchedArchive (patchEngine s).1.live = true ∧
    (patchInstallation (Except.ok ()) (patchInstallation (Except.ok ()) l jp).1 jp).1
      = (patchInstallation (Except.ok ()) l jp).1 ∧
    ∀ i ∈ (patchInstallation (Except.ok ()) l jp).1, i.jar_path = jp → i.is_patched = true := by
  refine ⟨fun h => by simp [patchEngine, h], ?_, ?_, ?_, ?_⟩
  · by_cases hp : isPatchedArchive s.live = true
    · simp [patchEngine, hp]
    · simp [patchEngine, hp, isPatched_patchArchive]
  · by_cases hp : isPatchedArchive s.live = true
    · simp [patchEngine, hp]
    · simp [patchEngine, hp, isPatched_patchArchive]
  · exact setPatched_idem true jp l
  · intro i hi hjp
    simp only [patchInstallation, setPatched, List.mem_map] at hi
    obtain ⟨x, -, rfl⟩ := hi
    by_cases h : x.jar_path = jp
    · simp [h]
    · simp only [h, beq_iff_eq, if_neg h] at hjp ⊢
      exact absurd hjp h

/-- C3 witness: the already-patched no-op on a concrete patched state, and
the patched flag of the concrete frontend entry after `patchInstallation`. -/
theorem C3_patch_idempotent_witness :
    patchEngine statePatched = (statePatched, Except.ok ()) ∧
    ({ instA with is_patched := true } : BitwigInstallation).is_patched = true :=
  ⟨(C3_patch_idempotent statePatched [] "").1 (by decide),
   (C3_patch_idempotent statePristine [instA] instA.jar_path).2.2.2.2
     { instA with is_patched := true } (by simp [patchInstallation, setPatched]) rfl⟩

/-- C4: `restore` with no backup fails with the "no backup" condition and
leaves the backend state (hence the package) unmodified; and whenever the
`restore_bitwig` invocation rejects, the frontend `restoreInstallation`
returns false and leaves the installations list unchanged. -/
theorem C4_restore_without_backup (s : EngineState) (l : List BitwigInstallation)
    (jp e : String) :
    (s.backup = none → restoreEngine s = (s, Except.error "no backup")) ∧
    restoreInstallation (Except.error e) l jp = (l, false) := by
  refine ⟨fun h => ?_, rfl⟩
  unfold restoreEngine
  rw [h]

/-- C4 witness: restoring the pristine (backup-less) state. -/
theorem C4_restore_without_backup_witness :
    statePristine.backup = none ∧
    restoreEngine statePristine = (statePristine, Except.error "no backup") :=
  ⟨rfl, (C4_restore_without_backup statePristine [] "" "").1 rfl⟩

/-- C5 counterexample: the native color-input path performs no validation —
the malformed value "red" is uppercased to "RED" and written into the
theme's colors map by `updateColor`, where it is stored even though it does
not match `^#[0-9A-Fa-f]{6}$`. -/
theorem C5_invalid_color_stored_counterexample :
    isValidHexColor "red" = false ∧
    nativeColorEdit "background" "red" (some themeBase)
      = some { themeBase with colors := [("background", "RED")] } ∧
    isValidHexColor "RED" = false := by
  refine ⟨by decide, ?_, by decide⟩
  decide

/-- C5 (amended): color values entered through the text-input path are
validated against `^#[0-9A-Fa-f]{6}$` before `updateColor` stores them, so
that path preserves the colors-map invariant; only the native color-input
path forwards its value unvalidated. -/
theorem C5_text_path_validates (key input : String) (t : Theme)
    (h : t.colors.all (fun p => isValidHexColor p.2) = true) :
    ∀ t2, textColorEdit key input (some t) = some t2 →
      t2.colors.all (fun p => isValidHexColor p.2) = true := by
  intro t2 h2
  unfold textColorEdit handleInputChange at h2
  by_cases hv : isValidHexColor input = true
  · rw [if_pos hv] at h2
    simp only [updateColor, Option.some.injEq] at h2
    subst h2
    exact recordSet_all _ t.colors key input h hv
  · rw [if_neg hv] at h2
    cases h2
    exact h

/-- C5 witness: committing the valid value "#FFFFFF" through the text path
on a theme whose colors are all valid keeps them all valid. -/
theorem C5_text_path_validates_witness :
    themeBase.colors.all (fun p => isValidHexColor p.2) = true ∧
    ({ themeBase with
        colors := recordSet themeBase.colors "background" "#FFFFFF" } : Theme).colors.all
      (fun p => isValidHexColor p.2) = true :=
  ⟨by decide,
   C5_text_path_validates "background" "#FFFFFF" themeBase (by decide)
     { themeBase with colors := recordSet themeBase.colors "background" "#FFFFFF" } rfl⟩

/-- C6: at most one watch session exists after any sequence of watcher
commands; starting a watch always replaces the running session with exactly
the new path (last-writer-wins) and stopping clears it; and the frontend
`start` records the single new path as current. -/
theorem C6_single_watch_session (s : WatcherState) (cmds : List WatchCommand)
    (p : String) (ui : WatcherUIState) :
    activeSessions (runWatch s cmds) ≤ 1 ∧
    runWatch s (cmds ++ [WatchCommand.start p]) = some p ∧
    runWatch s (cmds ++ [WatchCommand.stop]) = none ∧
    (watcherStart (Except.ok ()) p ui).1.currentPath = some p ∧
    (watcherStart (Except.ok ()) p ui).1.isRunning = true := by
  refine ⟨?_, ?_, ?_, rfl, rfl⟩
  · cases runWatch s cmds <;> simp [activeSessions]
  · simp [runWatch, List.foldl_append, watchStep]
  · simp [runWatch, List.foldl_append, watchStep]

/-- C7: when the `apply_theme` invocation rejects, `applyTheme` leaves
`activeThemePath` unchanged, returns null, records the error, and the failed
call is fully retriable — a subsequent `applyTheme` behaves exactly as if
the failure had never happened. -/
theorem C7_failed_apply_recoverable (e themePath : String) (s : ThemesState)
    (retry : Except String String) :
    (applyTheme (Except.error e) themePath s).1.activeThemePath = s.activeThemePath ∧
    (applyTheme (Except.error e) themePath s).2 = none ∧
    (applyTheme (Except.error e) themePath s).1.error = some e ∧
    applyTheme retry themePath ((applyTheme (Except.error e) themePath s).1)
      = applyTheme retry themePath s := by
  refine ⟨rfl, rfl, rfl, ?_⟩
  cases retry <;> simp [applyTheme]

/-- C8: the api module exports no `resetTheme`, so `handleResetTheme` always
catches the TypeError from calling `undefined` and reports failure — the
reset never completes, whatever the backend would have answered. -/
theorem C8_reset_theme_never_succeeds (backend : String → Except String String)
    (version : String) :
    "resetTheme" ∉ bitwigApiExports ∧
    handleResetTheme backend version =
      { success := false,
        message := "Reset failed: TypeError: api.resetTheme is not a function" } := by
  have hn : "resetTheme" ∉ bitwigApiExports := by decide
  refine ⟨hn, ?_⟩
  simp [handleResetTheme, resetThemeCall, hn]

/-- C9: rendering PatchView with a non-empty installations list does
dereference an undefined value — `backups` is not among the hook's returned
keys, so the render throws a TypeError. -/
theorem C9_patchview_undefined_deref (installs : List BitwigInstallation)
    (h : installs ≠ []) :
    "backups" ∉ useBitwigInstallationsKeys ∧
    renderPatchView installs = Except.error "TypeError: backups is undefined" := by
  have hn : "backups" ∉ useBitwigInstallationsKeys := by decide
  refine ⟨hn, ?_⟩
  cases installs with
  | nil => exact absurd rfl h
  | cons a tl => simp [renderPatchView, hn]

/-- C9 witness: one detected installation suffices to crash the render. -/
theorem C9_patchview_undefined_deref_witness :
    [instA] ≠ ([] : List BitwigInstallation) ∧
    renderPatchView [instA] = Except.error "TypeError: backups is undefined" :=
  ⟨List.cons_ne_nil _ _,
   (C9_patchview_undefined_deref [instA] (List.cons_ne_nil _ _)).2⟩

/-- C10: `addManualPath` returns the list unchanged (still answering true)
when the validated installation's `jar_path` is already present, preserves
freedom from duplicate `jar_path` entries, and is idempotent: adding the
same validated installation twice equals adding it once. -/
theorem C10_addManualPath_idempotent (l : List BitwigInstallation)
    (inst : BitwigInstallation) :
    (inst.jar_path ∈ l.map (fun i => i.jar_path) →
      addManualPath (Except.ok (some inst)) l = (l, true)) ∧
    ((l.map (fun i => i.jar_path)).Nodup →
      ((addManualPath (Except.ok (some inst)) l).1.map (fun i => i.jar_path)).Nodup) ∧
    addManualPath (Except.ok (some inst)) (addManualPath (Except.ok (some inst)) l).1
      = addManualPath (Except.ok (some inst)) l ∧
    (addManualPath (Except.ok (some inst)) l).2 = true := by
  have key : (l.any (fun i => i.jar_path == inst.jar_path) = true) ↔
      inst.jar_path ∈ l.map (fun i => i.jar_path) := by
    simp only [List.any_eq_true, beq_iff_eq, List.mem_map]
  by_cases hmem : l.any (fun i => i.jar_path == inst.jar_path) = true
  · refine ⟨fun _ => ?_, fun hd => ?_, ?_, ?_⟩
    · simp [addManualPath, hmem]
    · simpa [addManualPath, hmem] using hd
    · simp [addManualPath, hmem]
    · simp [addManualPath, hmem]
  · have hnot : inst.jar_path ∉ l.map (fun i => i.jar_path) := fun hc => hmem (key.mpr hc)
    refine ⟨fun hc => absurd hc hnot, fun hd => ?_, ?_, ?_⟩
    · simp only [addManualPath, if_neg hmem, List.map_append, List.map_cons, List.map_nil]
      rw [List.nodup_append]
      exact ⟨hd, List.nodup_singleton _, by simpa [List.Disjoint] using hnot⟩
    · simp only [addManualPath, if_neg hmem]
      have h2 : (l ++ [inst]).any (fun i => i.jar_path == inst.jar_path) = true := by
        simp [List.any_append]
      simp [h2]
    · simp [addManualPath, hmem]

/-- C10 witness: adding the already-present installation returns the list
unchanged with true, and the duplicate-free property is preserved. -/
theorem C10_addManualPath_idempotent_witness :
    addManualPath (Except.ok (some instA)) [instA] = ([instA], true) ∧
    ((addManualPath (Except.ok (some instA)) [instA]).1.map
      (fun i => i.jar_path)).Nodup :=
  ⟨(C10_addManualPath_idempotent [instA] instA).1 (by simp),
   (C10_addManualPath_idempotent [instA] instA).2.1 (by simp)⟩

end Bitwig
